import Mathlib

/-
Verification of hidkitd (src/hidkitd.c), a macOS daemon that watches for
attachment and removal of matching HID devices and runs a configured script
on each event.

Shallow embedding: C `long` values are modelled as `Int` (no claim depends on
64-bit overflow of `strtol`, whose LONG_MAX clamping is therefore not
modelled), C string pointers as `Option String`, CoreFoundation dictionaries
as association lists, and the I/O behaviour of `main` as an explicit trace of
events over an environment that decides the outcomes of the external IOKit
and libc calls (`IOServiceMatching` success, `IOServiceAddMatchingNotification`
success, initial iterator contents, `system` exit codes).
-/

namespace Hidkitd

/-- A CoreFoundation value stored in a matching dictionary: the code stores
`CFNumber` (from a `long`) and `CFString` values. -/
inductive CFValue where
  | num (n : Int)
  | str (s : String)
deriving DecidableEq, Repr

/-- A `CFMutableDictionaryRef` modelled as an association list of key/value
pairs; lookup-relevant content only (CF dictionaries are unordered, but the
code only ever inserts distinct keys, so a list is faithful). -/
abbrev CFDict : Type := List (String × CFValue)

/-- Models `CFDictionarySetValue`: replaces any existing entry for the key, then
adds the new pair. -/
def setValue (d : CFDict) (k : String) (v : CFValue) : CFDict :=
  (List.filter (fun kv => !(kv.1 == k)) d) ++ [(k, v)]

/-- Accumulates the leading decimal digits of a character list, stopping at
the first non-digit (the scanning core of `strtol(s, NULL, 10)`). -/
def digitsVal : List Char → Nat → Nat
  | [], acc => acc
  | c :: cs, acc =>
      if c.isDigit then digitsVal cs (acc * 10 + (c.toNat - '0'.toNat)) else acc

/-- Models `strtol(val, NULL, 10)`: skip leading whitespace, optional sign, then
leading decimal digits; no digits yields 0. -/
def strtol (s : String) : Int :=
  let cs := s.data.dropWhile fun c => c == ' ' || c == '\t' || c == '\n' || c == '\r'
  match cs with
  | '-' :: rest => -(digitsVal rest 0 : Int)
  | '+' :: rest => (digitsVal rest 0 : Int)
  | rest => (digitsVal rest 0 : Int)

/-- The parsed command-line arguments (struct `AppConfig` in the source). -/
structure AppConfig where
  vendorID : Int
  productID : Int
  usagePage : Int
  usage : Int
  productName : Option String
  deviceAddress : Option String
  onConnectScript : Option String
  onDisconnectScript : Option String
deriving DecidableEq, Repr

/-- Models `AppConfig config = {0};` — all numeric fields 0, all pointers NULL. -/
def AppConfig.init : AppConfig :=
  { vendorID := 0, productID := 0, usagePage := 0, usage := 0,
    productName := none, deviceAddress := none,
    onConnectScript := none, onDisconnectScript := none }

/-- Models `snprintf(command, 2048, "\"%s\"", scriptPath)`: the quoted path written
into a fixed 2048-byte buffer, hence truncated to at most 2047 characters
(one byte is reserved for the terminating NUL). -/
def buildCommand (scriptPath : String) : String :=
  String.mk (List.take 2047 (('\"' :: scriptPath.data) ++ ['\"']))

/-- One observable step of the daemon: a printf line, the matcher-build
failure path, entry into / activity of the Action Runner, a `system` call
with its exit status, an `IOObjectRelease`, an
`IOServiceAddMatchingNotification` registration, or entry into
`CFRunLoopRun`. -/
inductive Ev where
  | log (msg : String)
  | matcherBuildFailed
  | runnerInvoked (path : Option String)
  | execCmd (cmd : String) (status : Int)
  | released (h : Nat)
  | subAdded (removal : Bool) (ok : Bool)
  | runLoopEntered
deriving DecidableEq, Repr

/-- Models `run_script`: returns immediately when the path is NULL; otherwise builds
the quoted command, logs it, and calls `system`, ignoring the exit status
(`sys` gives the exit status the external `system` call would return). -/
def run_script (sys : String → Int) (scriptPath : Option String) : List Ev :=
  match scriptPath with
  | none => [Ev.runnerInvoked none]
  | some p =>
      [Ev.runnerInvoked (some p),
       Ev.log ("DAEMON: Executing command: " ++ buildCommand p),
       Ev.execCmd (buildCommand p) (sys (buildCommand p))]

/-- Models `deviceConnected`: drains the iterator; for each matched service, logs
the event, runs the on-connect script, and releases the handle. -/
def deviceConnected (cfg : AppConfig) (sys : String → Int) : List Nat → List Ev
  | [] => []
  | h :: rest =>
      (Ev.log ("DAEMON: Received connect (matched) event.") ::
        run_script sys cfg.onConnectScript ++ [Ev.released h])
      ++ deviceConnected cfg sys rest

/-- Models `deviceDisconnected`: same loop for the terminated iterator and the
on-disconnect script. -/
def deviceDisconnected (cfg : AppConfig) (sys : String → Int) : List Nat → List Ev
  | [] => []
  | h :: rest =>
      (Ev.log ("DAEMON: Received disconnect (terminated) event.") ::
        run_script sys cfg.onDisconnectScript ++ [Ev.released h])
      ++ deviceDisconnected cfg sys rest

/-- Models `createMatchingDictionary`: `baseOk` is whether the external
`IOServiceMatching("IOHIDUserDevice")` call succeeds (its result carries the
`IOProviderClass` entry); on failure the function logs and returns NULL.
Each positive numeric field and each non-NULL string field of the config is
then set in the dictionary. -/
def createMatchingDictionary (baseOk : Bool) (cfg : AppConfig) : Option CFDict :=
  if !baseOk then none
  else
    let d : CFDict := [("IOProviderClass", CFValue.str ("IOHIDUserDevice"))]
    let d := if cfg.vendorID > 0 then setValue d ("VendorID") (CFValue.num cfg.vendorID) else d
    let d := if cfg.productID > 0 then setValue d ("ProductID") (CFValue.num cfg.productID) else d
    let d := if cfg.usagePage > 0 then setValue d ("PrimaryUsagePage") (CFValue.num cfg.usagePage) else d
    let d := if cfg.usage > 0 then setValue d ("PrimaryUsage") (CFValue.num cfg.usage) else d
    let d := match cfg.productName with
      | some s => setValue d ("Product") (CFValue.str s)
      | none => d
    let d := match cfg.deviceAddress with
      | some s => setValue d ("DeviceAddress") (CFValue.str s)
      | none => d
    some d

/-- A startup parse error: a flag at the end of argv with no value, or an
unrecognised flag. Both print to stderr and exit 1. -/
inductive ParseErr where
  | missingValue (flag : String)
  | unknownFlag (flag : String)
deriving DecidableEq, Repr

/-- One iteration of the argument loop body: which config field the flag
assigns (`none` for an unknown flag). -/
def applyFlag (cfg : AppConfig) (flag val : String) : Option AppConfig :=
  if flag == "--vendor-id" then some { cfg with vendorID := strtol val }
  else if flag == "--product-id" then some { cfg with productID := strtol val }
  else if flag == "--usage-page" then some { cfg with usagePage := strtol val }
  else if flag == "--usage" then some { cfg with usage := strtol val }
  else if flag == "--name" then some { cfg with productName := some val }
  else if flag == "--address" then some { cfg with deviceAddress := some val }
  else if flag == "--on-connect" then some { cfg with onConnectScript := some val }
  else if flag == "--on-disconnect" then some { cfg with onDisconnectScript := some val }
  else none

/-- The argument loop (`for (i = 1; i < argc; i += 2)`), over the argv tail:
a lone trailing argument is a missing-value error (checked before the flag
is identified), otherwise each flag/value pair updates the config. -/
def parseLoop : List String → AppConfig → Except ParseErr AppConfig
  | [], cfg => Except.ok cfg
  | [flag], _ => Except.error (ParseErr.missingValue flag)
  | flag :: val :: rest, cfg =>
      match applyFlag cfg flag val with
      | some cfg2 => parseLoop rest cfg2
      | none => Except.error (ParseErr.unknownFlag flag)

/-- The filter check of line 153: true iff every numeric filter is 0 and both
string filters are NULL (the only configuration validation rejects). -/
def noFilter (cfg : AppConfig) : Bool :=
  cfg.vendorID == 0 && cfg.productID == 0 && cfg.productName == none
    && cfg.deviceAddress == none && cfg.usagePage == 0 && cfg.usage == 0

/-- The action check of line 156: true iff both script paths are NULL. -/
def noAction (cfg : AppConfig) : Bool :=
  cfg.onConnectScript == none && cfg.onDisconnectScript == none

/-- Outcomes of the external calls `main` makes: whether the base-matcher
call and each subscription registration succeed, which device handles sit in
each iterator when the subscription is created, and the exit status `system`
returns per command. -/
structure Env where
  ioServiceMatchingOk : Bool
  addMatchedOk : Bool
  addTerminatedOk : Bool
  initialMatched : List Nat
  initialTerminated : List Nat
  sysExit : String → Int

/-- How a run of `main` ends: an `exit`/`return` with a status, or blocked
forever inside `CFRunLoopRun` (which never returns). -/
inductive MainOutcome where
  | exited (code : Int)
  | runningForever
deriving DecidableEq, Repr

/-- The stderr log produced inside `createMatchingDictionary` when the base
matcher cannot be built. -/
def matcherEvs (d : Option CFDict) : List Ev :=
  match d with
  | some _ => []
  | none => [Ev.matcherBuildFailed]

/-- Lines 163-179 of `main`: build the matched-notification dictionary,
register the arrival subscription, drain it (catch-up), do the same for the
terminated notification, then enter `CFRunLoopRun`. The code never inspects
the NULL dictionary or the registration return codes: a failed registration
yields an empty iterator but control continues regardless. -/
def startup (env : Env) (cfg : AppConfig) : List Ev × MainOutcome :=
  let matchDict := createMatchingDictionary env.ioServiceMatchingOk cfg
  let okM := env.addMatchedOk && matchDict.isSome
  let batchM := if okM then env.initialMatched else []
  let termDict := createMatchingDictionary env.ioServiceMatchingOk cfg
  let okT := env.addTerminatedOk && termDict.isSome
  let batchT := if okT then env.initialTerminated else []
  (matcherEvs matchDict
     ++ [Ev.subAdded false okM] ++ deviceConnected cfg env.sysExit batchM
     ++ matcherEvs termDict
     ++ [Ev.subAdded true okT] ++ deviceDisconnected cfg env.sysExit batchT
     ++ [Ev.log ("DAEMON: Monitoring started."), Ev.runLoopEntered],
   MainOutcome.runningForever)

/-- Models `main` over the argv tail (`argv[1..]`): the help fast path returns 0;
a parse error or failed validation returns 1 before any external call;
otherwise startup runs and the process stays in the run loop forever. -/
def mainModel (env : Env) (args : List String) : List Ev × MainOutcome :=
  if args = [] ∨ args = ["--help"] then
    ([], MainOutcome.exited 0)
  else
    match parseLoop args AppConfig.init with
    | Except.error _ => ([], MainOutcome.exited 1)
    | Except.ok cfg =>
      if noFilter cfg then ([], MainOutcome.exited 1)
      else if noAction cfg then ([], MainOutcome.exited 1)
      else
        (Ev.log ("DAEMON: Starting up...") :: (startup env cfg).1, (startup env cfg).2)

/-- The value paired with the last occurrence of `flag` when the argument
list is read in flag/value pairs. -/
def lastFlagValue (flag : String) : List String → Option String
  | f :: v :: rest =>
      (match lastFlagValue flag rest with
       | some w => some w
       | none => if f == flag then some v else none)
  | _ => none

/-- Modelled from the spec: the device-notification service's matching
semantics, which the source delegates to IOKit — a query matches a device
(viewed as its property table) iff every key/value constraint in the query
is satisfied, i.e. the logical AND of the query's constraints. -/
def dictMatches (d : CFDict) (dev : String → Option CFValue) : Bool :=
  List.all d fun kv => dev kv.1 == some kv.2

/-- The entry contributed by a numeric config field: present iff positive. -/
def numEntry (k : String) (n : Int) : CFDict :=
  if n > 0 then [(k, CFValue.num n)] else []

/-- The entry contributed by a string config field: present iff non-NULL. -/
def strEntry (k : String) (o : Option String) : CFDict :=
  match o with
  | some s => [(k, CFValue.str s)]
  | none => []

/-- The handle released by an event, if it is a release. -/
def releaseOf : Ev → Option Nat
  | Ev.released h => some h
  | _ => none

/-- Whether an event marks an entry into the Action Runner (`run_script`). -/
def isInvoke : Ev → Bool
  | Ev.runnerInvoked _ => true
  | _ => false

/-- Number of entries of a dictionary carrying the given key. -/
def countKey (d : CFDict) (k : String) : Nat :=
  (List.filter (fun kv => kv.1 == k) d).length

/-- Erases the exit status recorded on a `system` call, keeping everything
else of the trace: two traces equal up to `eraseStatus` differ only in
script outcomes. -/
def eraseStatus : Ev → Ev
  | Ev.execCmd c _ => Ev.execCmd c 0
  | e => e

end Hidkitd

namespace Hidkitd

/- ### Helper lemmas -/

theorem run_script_filterMap_releaseOf (sys : String → Int) (p : Option String) :
  (run_script sys p).filterMap releaseOf = [] := by
  cases p <;> simp [run_script, releaseOf]

theorem run_script_countP_isInvoke (sys : String → Int) (p : Option String) :
  (run_script sys p).countP isInvoke = 1 := by
  cases p <;> simp [run_script, isInvoke, List.countP_cons]

theorem deviceConnected_filterMap_releaseOf
    (cfg : AppConfig) (sys : String → Int) (batch : List Nat) :
    (deviceConnected cfg sys batch).filterMap releaseOf = batch := by
  induction batch with
  | nil => simp [deviceConnected]
  | cons h rest ih =>
      simp [deviceConnected, List.filterMap_append,
        run_script_filterMap_releaseOf, releaseOf, ih]

theorem deviceConnected_countP_isInvoke
    (cfg : AppConfig) (sys : String → Int) (batch : List Nat) :
    (deviceConnected cfg sys batch).countP isInvoke = batch.length := by
  induction batch with
  | nil => simp [deviceConnected]
  | cons h rest ih =>
      simp [deviceConnected, List.countP_append, List.countP_cons,
        run_script_countP_isInvoke, isInvoke, ih]
      omega

theorem deviceDisconnected_filterMap_releaseOf
    (cfg : AppConfig) (sys : String → Int) (batch : List Nat) :
    (deviceDisconnected cfg sys batch).filterMap releaseOf = batch := by
  induction batch with
  | nil => simp [deviceDisconnected]
  | cons h rest ih =>
      simp [deviceDisconnected, List.filterMap_append,
        run_script_filterMap_releaseOf, releaseOf, ih]

theorem deviceDisconnected_countP_isInvoke
    (cfg : AppConfig) (sys : String → Int) (batch : List Nat) :
    (deviceDisconnected cfg sys batch).countP isInvoke = batch.length := by
  induction batch with
  | nil => simp [deviceDisconnected]
  | cons h rest ih =>
      simp [deviceDisconnected, List.countP_append, List.countP_cons,
        run_script_countP_isInvoke, isInvoke, ih]
      omega

/- ### C2 -/

/-- C2: for every batch of N matched device handles delivered to a dispatcher
callback (connect or disconnect), the Action Runner (`run_script`) is entered
exactly N times, and the released handles are exactly the N handles of the
batch, in order, once each — for every script outcome `sys` and whether or
not a script is configured (both script fields of `cfg` are arbitrary). -/
theorem dispatcher_invokes_and_releases_once_per_handle
    (cfg : AppConfig) (sys : String → Int) (batch : List Nat) :
    ((deviceConnected cfg sys batch).filterMap releaseOf = batch
      ∧ (deviceConnected cfg sys batch).countP isInvoke = batch.length)
    ∧ ((deviceDisconnected cfg sys batch).filterMap releaseOf = batch
      ∧ (deviceDisconnected cfg sys batch).countP isInvoke = batch.length) :=
  ⟨⟨deviceConnected_filterMap_releaseOf cfg sys batch,
    deviceConnected_countP_isInvoke cfg sys batch⟩,
   ⟨deviceDisconnected_filterMap_releaseOf cfg sys batch,
    deviceDisconnected_countP_isInvoke cfg sys batch⟩⟩

/- ### C9 -/

/-- C9: the command executed for a non-null script path is the path wrapped
in double quotes, built in a fixed 2048-byte buffer: paths of at most 2045
characters produce the quoted path verbatim, while any longer path is
silently truncated to the opening quote followed by the first 2046
characters of the path — the closing quote (and, beyond 2046, the tail of
the path) is lost. -/
theorem run_script_command_quoting_and_truncation (s : String) :
    buildCommand s =
      if s.length ≤ 2045 then ("\"") ++ s ++ "\""
      else String.mk ('\"' :: s.data.take 2046) := by
  by_cases h : s.length ≤ 2045
  · rw [if_pos h]
    apply String.ext
    rw [String.data_append, String.data_append]
    show List.take 2047 (('\"' :: s.data) ++ ['\"']) = ('\"' :: s.data) ++ ['\"']
    apply List.take_of_length_le
    have hd : s.data.length ≤ 2045 := h
    simp only [List.length_append, List.length_cons, List.length_nil]
    omega
  · rw [if_neg h]
    apply String.ext
    show List.take 2047 (('\"' :: s.data) ++ ['\"']) = '\"' :: List.take 2046 s.data
    have hd : ¬ s.data.length ≤ 2045 := h
    have h2 : 2046 - s.data.length = 0 := by omega
    rw [List.cons_append, List.take_succ_cons, List.take_append_eq_append_take, h2]
    simp

end Hidkitd

namespace Hidkitd

/- ### Normal form of the matching dictionary -/

set_option maxHeartbeats 1000000 in
theorem createMatchingDictionary_eq (cfg : AppConfig) :
    createMatchingDictionary true cfg = some
      ([("IOProviderClass", CFValue.str ("IOHIDUserDevice"))]
        ++ numEntry ("VendorID") cfg.vendorID
        ++ numEntry ("ProductID") cfg.productID
        ++ numEntry ("PrimaryUsagePage") cfg.usagePage
        ++ numEntry ("PrimaryUsage") cfg.usage
        ++ strEntry ("Product") cfg.productName
        ++ strEntry ("DeviceAddress") cfg.deviceAddress) := by
  obtain ⟨vid, pid, up, u, pn, da, oc, od⟩ := cfg
  show (if !true then none else _) = _
  rw [Bool.not_true, if_neg (by simp)]
  simp only [numEntry, strEntry]
  cases pn <;> cases da <;> split_ifs <;> rfl

theorem countKey_append (d₁ d₂ : CFDict) (k : String) :
    countKey (d₁ ++ d₂) k = countKey d₁ k + countKey d₂ k := by
  simp [countKey, List.filter_append]

theorem countKey_numEntry_self (k : String) (n : Int) :
    countKey (numEntry k n) k = if 0 < n then 1 else 0 := by
  unfold numEntry
  split_ifs <;> simp_all [countKey]

theorem countKey_numEntry_ne (k k' : String) (n : Int) (h : (k' == k) = false) :
    countKey (numEntry k' n) k = 0 := by
  unfold numEntry
  split_ifs <;> simp [countKey, h]

theorem countKey_strEntry_self (k : String) (o : Option String) :
    countKey (strEntry k o) k = if o.isSome then 1 else 0 := by
  cases o <;> simp [strEntry, countKey]

theorem countKey_strEntry_ne (k k' : String) (o : Option String) (h : (k' == k) = false) :
    countKey (strEntry k' o) k = 0 := by
  cases o <;> simp [strEntry, countKey, h]

theorem mem_numEntry (k : String) (n : Int) (kv : String × CFValue) :
    kv ∈ numEntry k n ↔ 0 < n ∧ kv = (k, CFValue.num n) := by
  unfold numEntry
  split_ifs with h <;> simp_all

theorem mem_strEntry (k : String) (o : Option String) (kv : String × CFValue) :
    kv ∈ strEntry k o ↔ ∃ s, o = some s ∧ kv = (k, CFValue.str s) := by
  cases o <;> simp [strEntry]

theorem mem_createMatchingDictionary (cfg : AppConfig) (d : CFDict)
    (hd : createMatchingDictionary true cfg = some d) (kv : String × CFValue) :
    kv ∈ d ↔
      (kv = ("IOProviderClass", CFValue.str ("IOHIDUserDevice"))
        ∨ (0 < cfg.vendorID ∧ kv = ("VendorID", CFValue.num cfg.vendorID))
        ∨ (0 < cfg.productID ∧ kv = ("ProductID", CFValue.num cfg.productID))
        ∨ (0 < cfg.usagePage ∧ kv = ("PrimaryUsagePage", CFValue.num cfg.usagePage))
        ∨ (0 < cfg.usage ∧ kv = ("PrimaryUsage", CFValue.num cfg.usage))
        ∨ (∃ s, cfg.productName = some s ∧ kv = ("Product", CFValue.str s))
        ∨ (∃ s, cfg.deviceAddress = some s ∧ kv = ("DeviceAddress", CFValue.str s))) := by
  rw [createMatchingDictionary_eq cfg] at hd
  injection hd with hd
  subst hd
  simp only [List.mem_append, mem_numEntry, mem_strEntry, List.mem_singleton,
    or_assoc]

theorem dictMatches_iff (d : CFDict) (dev : String → Option CFValue) :
    dictMatches d dev = true ↔ ∀ kv ∈ d, dev kv.1 = some kv.2 := by
  simp [dictMatches, List.all_eq_true]

end Hidkitd

namespace Hidkitd

theorem countKey_single (k0 k : String) (v : CFValue) :
    countKey [(k0, v)] k = if k0 == k then 1 else 0 := by
  cases h : k0 == k <;> simp [countKey, List.filter_cons, h]

theorem countKey_cons (k0 : String) (v : CFValue) (d : CFDict) (k : String) :
    countKey ((k0, v) :: d) k = (if k0 == k then 1 else 0) + countKey d k := by
  cases h : k0 == k <;> simp [countKey, List.filter_cons, h, Nat.add_comm]

theorem length_numEntry (k : String) (n : Int) :
    (numEntry k n).length = if 0 < n then 1 else 0 := by
  unfold numEntry
  split_ifs <;> simp_all

theorem length_strEntry (k : String) (o : Option String) :
    (strEntry k o).length = if o.isSome then 1 else 0 := by
  cases o <;> simp [strEntry]

theorem createMatchingDictionary_baseOk (b : Bool) (cfg : AppConfig) (d : CFDict)
    (hd : createMatchingDictionary b cfg = some d) : b = true := by
  cases b with
  | true => rfl
  | false => simp [createMatchingDictionary] at hd

/- ### C3 -/

/-- C3: for every FilterSpec, the compiled matching dictionary contains
exactly one constraint per present field (numeric fields when positive,
string fields when non-NULL), no constraint for any absent field, and no
entries beyond the base class constraint and the present fields; the
constraint carries exactly the configured value; and the query is the
logical AND of its constraints, so a compile from any config extending the
set fields only narrows the set of matching devices. -/
theorem compile_constrains_exactly_the_set_fields
    (baseOk : Bool) (cfg : AppConfig) (d : CFDict)
    (hd : createMatchingDictionary baseOk cfg = some d) :
    (countKey d ("VendorID") = if 0 < cfg.vendorID then 1 else 0)
    ∧ (countKey d ("ProductID") = if 0 < cfg.productID then 1 else 0)
    ∧ (countKey d ("PrimaryUsagePage") = if 0 < cfg.usagePage then 1 else 0)
    ∧ (countKey d ("PrimaryUsage") = if 0 < cfg.usage then 1 else 0)
    ∧ (countKey d ("Product") = if cfg.productName.isSome then 1 else 0)
    ∧ (countKey d ("DeviceAddress") = if cfg.deviceAddress.isSome then 1 else 0)
    ∧ countKey d ("IOProviderClass") = 1
    ∧ (d.length = 1 + (if 0 < cfg.vendorID then 1 else 0)
        + (if 0 < cfg.productID then 1 else 0)
        + (if 0 < cfg.usagePage then 1 else 0)
        + (if 0 < cfg.usage then 1 else 0)
        + (if cfg.productName.isSome then 1 else 0)
        + (if cfg.deviceAddress.isSome then 1 else 0))
    ∧ (∀ n, ("VendorID", CFValue.num n) ∈ d ↔ 0 < cfg.vendorID ∧ n = cfg.vendorID)
    ∧ (∀ n, ("ProductID", CFValue.num n) ∈ d ↔ 0 < cfg.productID ∧ n = cfg.productID)
    ∧ (∀ n, ("PrimaryUsagePage", CFValue.num n) ∈ d ↔ 0 < cfg.usagePage ∧ n = cfg.usagePage)
    ∧ (∀ n, ("PrimaryUsage", CFValue.num n) ∈ d ↔ 0 < cfg.usage ∧ n = cfg.usage)
    ∧ (∀ s, ("Product", CFValue.str s) ∈ d ↔ cfg.productName = some s)
    ∧ (∀ s, ("DeviceAddress", CFValue.str s) ∈ d ↔ cfg.deviceAddress = some s)
    ∧ (∀ cfg₂ d₂, createMatchingDictionary baseOk cfg₂ = some d₂ →
        (0 < cfg.vendorID → cfg₂.vendorID = cfg.vendorID) →
        (0 < cfg.productID → cfg₂.productID = cfg.productID) →
        (0 < cfg.usagePage → cfg₂.usagePage = cfg.usagePage) →
        (0 < cfg.usage → cfg₂.usage = cfg.usage) →
        (∀ s, cfg.productName = some s → cfg₂.productName = some s) →
        (∀ s, cfg.deviceAddress = some s → cfg₂.deviceAddress = some s) →
        ∀ dev, dictMatches d₂ dev = true → dictMatches d dev = true) := by
  have hb : baseOk = true := createMatchingDictionary_baseOk baseOk cfg d hd
  subst hb
  have hmem := mem_createMatchingDictionary cfg d hd
  have hdn := hd
  rw [createMatchingDictionary_eq cfg] at hdn
  injection hdn with hdn
  refine ⟨?_, ?_, ?_, ?_, ?_, ?_, ?_, ?_, ?_, ?_, ?_, ?_, ?_, ?_, ?_⟩
  · rw [← hdn]
    simp [countKey_append, countKey_cons, countKey_single, countKey_numEntry_self,
      countKey_strEntry_self, countKey_numEntry_ne, countKey_strEntry_ne]
  · rw [← hdn]
    simp [countKey_append, countKey_cons, countKey_single, countKey_numEntry_self,
      countKey_strEntry_self, countKey_numEntry_ne, countKey_strEntry_ne]
  · rw [← hdn]
    simp [countKey_append, countKey_cons, countKey_single, countKey_numEntry_self,
      countKey_strEntry_self, countKey_numEntry_ne, countKey_strEntry_ne]
  · rw [← hdn]
    simp [countKey_append, countKey_cons, countKey_single, countKey_numEntry_self,
      countKey_strEntry_self, countKey_numEntry_ne, countKey_strEntry_ne]
  · rw [← hdn]
    simp [countKey_append, countKey_cons, countKey_single, countKey_numEntry_self,
      countKey_strEntry_self, countKey_numEntry_ne, countKey_strEntry_ne]
  · rw [← hdn]
    simp [countKey_append, countKey_cons, countKey_single, countKey_numEntry_self,
      countKey_strEntry_self, countKey_numEntry_ne, countKey_strEntry_ne]
  · rw [← hdn]
    simp [countKey_append, countKey_cons, countKey_single, countKey_numEntry_self,
      countKey_strEntry_self, countKey_numEntry_ne, countKey_strEntry_ne]
  · rw [← hdn]
    simp only [List.length_append, length_numEntry, length_strEntry,
      List.length_singleton]
  · intro n
    rw [hmem ("VendorID", CFValue.num n)]
    simp [eq_comm]
  · intro n
    rw [hmem ("ProductID", CFValue.num n)]
    simp [eq_comm]
  · intro n
    rw [hmem ("PrimaryUsagePage", CFValue.num n)]
    simp [eq_comm]
  · intro n
    rw [hmem ("PrimaryUsage", CFValue.num n)]
    simp [eq_comm]
  · intro s
    rw [hmem ("Product", CFValue.str s)]
    simp [eq_comm]
  · intro s
    rw [hmem ("DeviceAddress", CFValue.str s)]
    simp [eq_comm]
  · intro cfg₂ d₂ hd₂ h1 h2 h3 h4 h5 h6 dev hm
    rw [dictMatches_iff] at hm ⊢
    intro kv hkv
    have hmem₂ := mem_createMatchingDictionary cfg₂ d₂ hd₂ kv
    rcases (hmem kv).mp hkv with h | ⟨ha, hb⟩ | ⟨ha, hb⟩ | ⟨ha, hb⟩ | ⟨ha, hb⟩
      | ⟨s, hs, hb⟩ | ⟨s, hs, hb⟩
    · exact hm kv (hmem₂.mpr (Or.inl h))
    · refine hm kv (hmem₂.mpr (Or.inr (Or.inl ⟨?_, ?_⟩)))
      · rw [h1 ha]; exact ha
      · rw [h1 ha]; exact hb
    · refine hm kv (hmem₂.mpr (Or.inr (Or.inr (Or.inl ⟨?_, ?_⟩))))
      · rw [h2 ha]; exact ha
      · rw [h2 ha]; exact hb
    · refine hm kv (hmem₂.mpr (Or.inr (Or.inr (Or.inr (Or.inl ⟨?_, ?_⟩)))))
      · rw [h3 ha]; exact ha
      · rw [h3 ha]; exact hb
    · refine hm kv (hmem₂.mpr (Or.inr (Or.inr (Or.inr (Or.inr (Or.inl ⟨?_, ?_⟩))))))
      · rw [h4 ha]; exact ha
      · rw [h4 ha]; exact hb
    · exact hm kv (hmem₂.mpr (Or.inr (Or.inr (Or.inr (Or.inr (Or.inr (Or.inl
        ⟨s, h5 s hs, hb⟩)))))))
    · exact hm kv (hmem₂.mpr (Or.inr (Or.inr (Or.inr (Or.inr (Or.inr (Or.inr
        ⟨s, h6 s hs, hb⟩)))))))

/-- C3 witness: the theorem applied to the FilterSpec {vendorID 1234,
productID 5678} extended by a usage-page field, at a concrete dictionary. -/
theorem compile_constrains_exactly_the_set_fields_witness :
    createMatchingDictionary true
        { vendorID := 1234, productID := 5678, usagePage := 0, usage := 0,
          productName := none, deviceAddress := none,
          onConnectScript := some ("/tmp/c.sh"), onDisconnectScript := none }
      = some [("IOProviderClass", CFValue.str ("IOHIDUserDevice")),
              ("VendorID", CFValue.num 1234), ("ProductID", CFValue.num 5678)]
    ∧ countKey [("IOProviderClass", CFValue.str ("IOHIDUserDevice")),
              ("VendorID", CFValue.num 1234), ("ProductID", CFValue.num 5678)]
        "VendorID" = 1 := by
  refine ⟨by rfl, ?_⟩
  have h := compile_constrains_exactly_the_set_fields true
    { vendorID := 1234, productID := 5678, usagePage := 0, usage := 0,
      productName := none, deviceAddress := none,
      onConnectScript := some ("/tmp/c.sh"), onDisconnectScript := none }
    [("IOProviderClass", CFValue.str ("IOHIDUserDevice")),
     ("VendorID", CFValue.num 1234), ("ProductID", CFValue.num 5678)]
    (by rfl)
  rw [h.1]
  rfl

/- ### C8 -/

/-- C8: compile depends only on the FilterSpec fields — two compilations
from configs with identical filter fields (in particular two successive
compilations from the same config, as `main` performs for the arrival and
removal subscriptions) produce dictionaries carrying identical field
constraints, whatever the action-script fields are. -/
theorem compile_deterministic_in_filter_fields
    (baseOk : Bool) (cfg₁ cfg₂ : AppConfig)
    (h1 : cfg₁.vendorID = cfg₂.vendorID)
    (h2 : cfg₁.productID = cfg₂.productID)
    (h3 : cfg₁.usagePage = cfg₂.usagePage)
    (h4 : cfg₁.usage = cfg₂.usage)
    (h5 : cfg₁.productName = cfg₂.productName)
    (h6 : cfg₁.deviceAddress = cfg₂.deviceAddress) :
    createMatchingDictionary baseOk cfg₁ = createMatchingDictionary baseOk cfg₂ := by
  unfold createMatchingDictionary
  rw [h1, h2, h3, h4, h5, h6]

/-- C8 witness: two configs sharing filter fields but with different action
scripts (as the arrival and removal subscriptions effectively see) compile
to the same dictionary. -/
theorem compile_deterministic_in_filter_fields_witness :
    createMatchingDictionary true
        { vendorID := 1234, productID := 0, usagePage := 0, usage := 0,
          productName := none, deviceAddress := none,
          onConnectScript := some ("/tmp/c.sh"), onDisconnectScript := none }
      = createMatchingDictionary true
        { vendorID := 1234, productID := 0, usagePage := 0, usage := 0,
          productName := none, deviceAddress := none,
          onConnectScript := none, onDisconnectScript := some ("/tmp/d.sh") } :=
  compile_deterministic_in_filter_fields true _ _ rfl rfl rfl rfl rfl rfl

end Hidkitd

namespace Hidkitd

/- ### C1 -/

/-- C1 (code defect): startup-phase errors do not abort the process. With an
environment in which the base matching dictionary cannot be built
(MatcherBuildError: `IOServiceMatching` fails, so `createMatchingDictionary`
logs and returns NULL) and both subscription registrations fail
(SubscriptionError), `main` on a validated command line still reaches
`CFRunLoopRun`: the code never inspects the NULL dictionary or the
registration return codes, contradicting the claim that every such error
aborts before the run loop. -/
theorem startup_errors_do_not_abort_before_runloop :
    (Ev.matcherBuildFailed ∈ (mainModel
        { ioServiceMatchingOk := false, addMatchedOk := false,
          addTerminatedOk := false, initialMatched := [],
          initialTerminated := [], sysExit := fun _ => 0 }
        ["--vendor-id", "1234", "--on-connect", "/tmp/c.sh"]).1)
    ∧ (Ev.runLoopEntered ∈ (mainModel
        { ioServiceMatchingOk := false, addMatchedOk := false,
          addTerminatedOk := false, initialMatched := [],
          initialTerminated := [], sysExit := fun _ => 0 }
        ["--vendor-id", "1234", "--on-connect", "/tmp/c.sh"]).1)
    ∧ (mainModel
        { ioServiceMatchingOk := false, addMatchedOk := false,
          addTerminatedOk := false, initialMatched := [],
          initialTerminated := [], sysExit := fun _ => 0 }
        ["--vendor-id", "1234", "--on-connect", "/tmp/c.sh"]).2
      = MainOutcome.runningForever := by
  decide

end Hidkitd

namespace Hidkitd

/- ### C4 -/

/-- C4: when the base dictionary builds and both registrations succeed, the
startup phase drains, at each subscription's creation time and before
`CFRunLoopRun` is entered, the devices already present that match the query
(the initial iterator contents): the arrival drain enters the Action Runner
exactly once per present device and releases each present handle exactly
once, and the same catch-up drain is performed for the removal
subscription. -/
theorem subscriptions_catch_up_on_present_devices
    (env : Env) (cfg : AppConfig)
    (hm : env.ioServiceMatchingOk = true)
    (ha : env.addMatchedOk = true)
    (ht : env.addTerminatedOk = true) :
    (startup env cfg).1
      = Ev.subAdded false true :: (deviceConnected cfg env.sysExit env.initialMatched
        ++ Ev.subAdded true true :: (deviceDisconnected cfg env.sysExit env.initialTerminated
        ++ [Ev.log ("DAEMON: Monitoring started."), Ev.runLoopEntered]))
    ∧ (deviceConnected cfg env.sysExit env.initialMatched).countP isInvoke
        = env.initialMatched.length
    ∧ (deviceConnected cfg env.sysExit env.initialMatched).filterMap releaseOf
        = env.initialMatched
    ∧ (deviceDisconnected cfg env.sysExit env.initialTerminated).countP isInvoke
        = env.initialTerminated.length
    ∧ (deviceDisconnected cfg env.sysExit env.initialTerminated).filterMap releaseOf
        = env.initialTerminated := by
  refine ⟨?_, deviceConnected_countP_isInvoke cfg env.sysExit env.initialMatched,
    deviceConnected_filterMap_releaseOf cfg env.sysExit env.initialMatched,
    deviceDisconnected_countP_isInvoke cfg env.sysExit env.initialTerminated,
    deviceDisconnected_filterMap_releaseOf cfg env.sysExit env.initialTerminated⟩
  have hd : createMatchingDictionary env.ioServiceMatchingOk cfg
      = some ([("IOProviderClass", CFValue.str ("IOHIDUserDevice"))]
        ++ numEntry ("VendorID") cfg.vendorID
        ++ numEntry ("ProductID") cfg.productID
        ++ numEntry ("PrimaryUsagePage") cfg.usagePage
        ++ numEntry ("PrimaryUsage") cfg.usage
        ++ strEntry ("Product") cfg.productName
        ++ strEntry ("DeviceAddress") cfg.deviceAddress) := by
    rw [hm]
    exact createMatchingDictionary_eq cfg
  simp [startup, hd, matcherEvs, ha, ht]

/-- C4 witness: a concrete environment with one device already present on
the arrival side and one on the removal side. -/
theorem subscriptions_catch_up_on_present_devices_witness :
    (startup
        { ioServiceMatchingOk := true, addMatchedOk := true,
          addTerminatedOk := true, initialMatched := [7],
          initialTerminated := [9], sysExit := fun _ => 0 } AppConfig.init).1
      = Ev.subAdded false true :: (deviceConnected AppConfig.init (fun _ => 0) [7]
        ++ Ev.subAdded true true :: (deviceDisconnected AppConfig.init (fun _ => 0) [9]
        ++ [Ev.log ("DAEMON: Monitoring started."), Ev.runLoopEntered]))
    ∧ (deviceConnected AppConfig.init (fun _ => 0) [7]).countP isInvoke = 1
    ∧ (deviceConnected AppConfig.init (fun _ => 0) [7]).filterMap releaseOf = [7]
    ∧ (deviceDisconnected AppConfig.init (fun _ => 0) [9]).countP isInvoke = 1
    ∧ (deviceDisconnected AppConfig.init (fun _ => 0) [9]).filterMap releaseOf = [9] :=
  subscriptions_catch_up_on_present_devices
    { ioServiceMatchingOk := true, addMatchedOk := true,
      addTerminatedOk := true, initialMatched := [7],
      initialTerminated := [9], sysExit := fun _ => 0 }
    AppConfig.init rfl rfl rfl

/- ### C5 -/

theorem run_script_map_eraseStatus (f g : String → Int) (p : Option String) :
    (run_script f p).map eraseStatus = (run_script g p).map eraseStatus := by
  cases p <;> simp [run_script, eraseStatus]

theorem deviceConnected_map_eraseStatus
    (cfg : AppConfig) (f g : String → Int) (batch : List Nat) :
    (deviceConnected cfg f batch).map eraseStatus
      = (deviceConnected cfg g batch).map eraseStatus := by
  induction batch with
  | nil => simp [deviceConnected]
  | cons h rest ih =>
      simp only [deviceConnected, List.map_append, List.map_cons, ih]
      rw [run_script_map_eraseStatus f g]

theorem deviceDisconnected_map_eraseStatus
    (cfg : AppConfig) (f g : String → Int) (batch : List Nat) :
    (deviceDisconnected cfg f batch).map eraseStatus
      = (deviceDisconnected cfg g batch).map eraseStatus := by
  induction batch with
  | nil => simp [deviceDisconnected]
  | cons h rest ih =>
      simp only [deviceDisconnected, List.map_append, List.map_cons, ih]
      rw [run_script_map_eraseStatus f g]

theorem mainModel_outcome_env_independent (env₁ env₂ : Env) (args : List String) :
    (mainModel env₁ args).2 = (mainModel env₂ args).2 := by
  unfold mainModel
  split
  · rfl
  · cases hp : parseLoop args AppConfig.init with
    | error e => simp
    | ok cfg =>
        by_cases hf : noFilter cfg
        · simp [hf]
        · by_cases hn : noAction cfg
          · simp [hf, hn]
          · simp [hf, hn, startup]

/-- C5: a script launch failure is invisible outside the Action Runner. For
every exit-status assignment, `run_script` on a configured path produces
exactly the launch log, then the `system` call, and returns — no error value
reaches the dispatcher; the dispatcher's trace is identical under any two
exit-status assignments except for the recorded status itself (in particular
every handle of the batch is still released, so the event stream is not
interrupted); and the run outcome of `main` is entirely independent of the
environment, so a failing script can never terminate the daemon. -/
theorem script_launch_failure_is_swallowed_and_logged
    (cfg : AppConfig) (f g : String → Int) (batch : List Nat) (p : String)
    (env₁ env₂ : Env) (args : List String) :
    run_script f (some p)
      = [Ev.runnerInvoked (some p),
         Ev.log ("DAEMON: Executing command: " ++ buildCommand p),
         Ev.execCmd (buildCommand p) (f (buildCommand p))]
    ∧ (deviceConnected cfg f batch).map eraseStatus
        = (deviceConnected cfg g batch).map eraseStatus
    ∧ (deviceDisconnected cfg f batch).map eraseStatus
        = (deviceDisconnected cfg g batch).map eraseStatus
    ∧ (deviceConnected cfg f batch).filterMap releaseOf = batch
    ∧ (deviceDisconnected cfg f batch).filterMap releaseOf = batch
    ∧ (mainModel env₁ args).2 = (mainModel env₂ args).2 :=
  ⟨rfl,
   deviceConnected_map_eraseStatus cfg f g batch,
   deviceDisconnected_map_eraseStatus cfg f g batch,
   deviceConnected_filterMap_releaseOf cfg f batch,
   deviceDisconnected_filterMap_releaseOf cfg f batch,
   mainModel_outcome_env_independent env₁ env₂ args⟩

end Hidkitd

namespace Hidkitd

/- ### Parse loop lemmas -/

theorem parseLoop_even_length :
    ∀ (args : List String) (cfg₀ cfg : AppConfig),
      parseLoop args cfg₀ = Except.ok cfg → args.length % 2 = 0
  | [], _, _, _ => rfl
  | [flag], _, _, h => by simp [parseLoop] at h
  | f :: v :: rest, cfg₀, cfg, h => by
      simp only [parseLoop] at h
      cases ha : applyFlag cfg₀ f v with
      | none => rw [ha] at h; simp at h
      | some c =>
          rw [ha] at h
          simp only [] at h
          have := parseLoop_even_length rest c cfg h
          simp only [List.length_cons]
          omega

theorem parseLoop_field {α : Type} (proj : AppConfig → α) (F : String)
    (conv : String → α)
    (hcompat : ∀ cfg f v c, applyFlag cfg f v = some c →
        proj c = if f == F then conv v else proj cfg) :
    ∀ (args : List String) (cfg₀ cfg : AppConfig),
      parseLoop args cfg₀ = Except.ok cfg →
      proj cfg = (match lastFlagValue F args with
        | some w => conv w
        | none => proj cfg₀)
  | [], cfg₀, cfg, h => by
      simp only [parseLoop] at h
      injection h with h
      subst h
      rfl
  | [flag], _, _, h => by simp [parseLoop] at h
  | f :: v :: rest, cfg₀, cfg, h => by
      simp only [parseLoop] at h
      cases ha : applyFlag cfg₀ f v with
      | none => rw [ha] at h; simp at h
      | some c =>
          rw [ha] at h
          simp only [] at h
          have ih := parseLoop_field proj F conv hcompat rest c cfg h
          have hc := hcompat cfg₀ f v c ha
          show proj cfg = (match lastFlagValue F (f :: v :: rest) with
            | some w => conv w | none => proj cfg₀)
          simp only [lastFlagValue]
          cases hl : lastFlagValue F rest with
          | some w =>
              rw [hl] at ih
              simpa using ih
          | none =>
              rw [hl] at ih
              simp only [] at ih
              cases hf : f == F with
              | true =>
                  rw [hf] at hc
                  simp only [if_pos] at hc
                  simp [ih, hc]
              | false =>
                  rw [hf] at hc
                  simp only [Bool.false_eq_true, if_neg] at hc
                  simp [hf, ih, hc]

end Hidkitd

namespace Hidkitd

/- ### C10 -/

set_option maxHeartbeats 1000000 in
/-- C10: command-line arguments are consumed strictly in flag/value pairs
(a successful parse has an even number of arguments), and each config field
holds the converted value of the LAST occurrence of its flag — earlier
occurrences are overwritten and have no effect on the resulting
configuration. -/
theorem cli_pairs_last_occurrence_wins
    (args : List String) (cfg₀ cfg : AppConfig)
    (h : parseLoop args cfg₀ = Except.ok cfg) :
    args.length % 2 = 0
    ∧ cfg.vendorID = (match lastFlagValue ("--vendor-id") args with
        | some w => strtol w | none => cfg₀.vendorID)
    ∧ cfg.productID = (match lastFlagValue ("--product-id") args with
        | some w => strtol w | none => cfg₀.productID)
    ∧ cfg.usagePage = (match lastFlagValue ("--usage-page") args with
        | some w => strtol w | none => cfg₀.usagePage)
    ∧ cfg.usage = (match lastFlagValue ("--usage") args with
        | some w => strtol w | none => cfg₀.usage)
    ∧ cfg.productName = (match lastFlagValue ("--name") args with
        | some w => some w | none => cfg₀.productName)
    ∧ cfg.deviceAddress = (match lastFlagValue ("--address") args with
        | some w => some w | none => cfg₀.deviceAddress)
    ∧ cfg.onConnectScript = (match lastFlagValue ("--on-connect") args with
        | some w => some w | none => cfg₀.onConnectScript)
    ∧ cfg.onDisconnectScript = (match lastFlagValue ("--on-disconnect") args with
        | some w => some w | none => cfg₀.onDisconnectScript) := by
  refine ⟨parseLoop_even_length args cfg₀ cfg h, ?_, ?_, ?_, ?_, ?_, ?_, ?_, ?_⟩
  · exact parseLoop_field (fun c => c.vendorID) "--vendor-id" strtol
      (by
        intro cfg f v c hac
        unfold applyFlag at hac
        split_ifs at hac <;>
          first
            | exact Option.noConfusion hac
            | (injection hac with hac; subst hac; simp_all))
      args cfg₀ cfg h
  · exact parseLoop_field (fun c => c.productID) "--product-id" strtol
      (by
        intro cfg f v c hac
        unfold applyFlag at hac
        split_ifs at hac <;>
          first
            | exact Option.noConfusion hac
            | (injection hac with hac; subst hac; simp_all))
      args cfg₀ cfg h
  · exact parseLoop_field (fun c => c.usagePage) "--usage-page" strtol
      (by
        intro cfg f v c hac
        unfold applyFlag at hac
        split_ifs at hac <;>
          first
            | exact Option.noConfusion hac
            | (injection hac with hac; subst hac; simp_all))
      args cfg₀ cfg h
  · exact parseLoop_field (fun c => c.usage) "--usage" strtol
      (by
        intro cfg f v c hac
        unfold applyFlag at hac
        split_ifs at hac <;>
          first
            | exact Option.noConfusion hac
            | (injection hac with hac; subst hac; simp_all))
      args cfg₀ cfg h
  · exact parseLoop_field (fun c => c.productName) "--name" some
      (by
        intro cfg f v c hac
        unfold applyFlag at hac
        split_ifs at hac <;>
          first
            | exact Option.noConfusion hac
            | (injection hac with hac; subst hac; simp_all))
      args cfg₀ cfg h
  · exact parseLoop_field (fun c => c.deviceAddress) "--address" some
      (by
        intro cfg f v c hac
        unfold applyFlag at hac
        split_ifs at hac <;>
          first
            | exact Option.noConfusion hac
            | (injection hac with hac; subst hac; simp_all))
      args cfg₀ cfg h
  · exact parseLoop_field (fun c => c.onConnectScript) "--on-connect" some
      (by
        intro cfg f v c hac
        unfold applyFlag at hac
        split_ifs at hac <;>
          first
            | exact Option.noConfusion hac
            | (injection hac with hac; subst hac; simp_all))
      args cfg₀ cfg h
  · exact parseLoop_field (fun c => c.onDisconnectScript) "--on-disconnect" some
      (by
        intro cfg f v c hac
        unfold applyFlag at hac
        split_ifs at hac <;>
          first
            | exact Option.noConfusion hac
            | (injection hac with hac; subst hac; simp_all))
      args cfg₀ cfg h

/-- C10 witness: a duplicated flag — the stored vendor id is the value of
the second occurrence. -/
theorem cli_pairs_last_occurrence_wins_witness :
    ((["--vendor-id", "1", "--vendor-id", "7", "--on-connect", "/tmp/a.sh"]
        : List String).length % 2 = 0)
    ∧ ({ vendorID := 7, productID := 0, usagePage := 0, usage := 0,
          productName := none, deviceAddress := none,
          onConnectScript := some ("/tmp/a.sh"), onDisconnectScript := none }
        : AppConfig).vendorID
      = (match lastFlagValue ("--vendor-id")
            ["--vendor-id", "1", "--vendor-id", "7", "--on-connect", "/tmp/a.sh"] with
          | some w => strtol w
          | none => AppConfig.init.vendorID) :=
  ⟨(cli_pairs_last_occurrence_wins
      ["--vendor-id", "1", "--vendor-id", "7", "--on-connect", "/tmp/a.sh"]
      AppConfig.init
      { vendorID := 7, productID := 0, usagePage := 0, usage := 0,
        productName := none, deviceAddress := none,
        onConnectScript := some ("/tmp/a.sh"), onDisconnectScript := none }
      (by rfl)).1,
   (cli_pairs_last_occurrence_wins
      ["--vendor-id", "1", "--vendor-id", "7", "--on-connect", "/tmp/a.sh"]
      AppConfig.init
      { vendorID := 7, productID := 0, usagePage := 0, usage := 0,
        productName := none, deviceAddress := none,
        onConnectScript := some ("/tmp/a.sh"), onDisconnectScript := none }
      (by rfl)).2.1⟩

end Hidkitd

namespace Hidkitd

/- ### C6 -/

/-- C6 counterexample: invoked with no arguments at all — a command line in
which no filter field and no action script is given — the process prints the
help text and exits with status 0, not a non-zero status. -/
theorem empty_command_line_exits_zero :
    mainModel
        { ioServiceMatchingOk := true, addMatchedOk := true,
          addTerminatedOk := true, initialMatched := [], initialTerminated := [],
          sysExit := fun _ => 0 } []
      = ([], MainOutcome.exited 0) := by
  decide

/-- C6 (amended): except for the help invocations (no arguments at all, or
exactly "--help", which print usage and exit 0), every command line whose
parse fails (flag missing a value, or unknown flag) or whose parsed
configuration has no filter field or no action script makes the process
exit with status 1 and an empty trace: no subscription is attempted and the
run loop is never entered. -/
theorem config_error_exits_nonzero_before_subscriptions
    (env : Env) (args : List String)
    (hne : args ≠ []) (hnh : args ≠ ["--help"])
    (hbad : match parseLoop args AppConfig.init with
      | Except.error _ => True
      | Except.ok cfg => noFilter cfg = true ∨ noAction cfg = true) :
    mainModel env args = ([], MainOutcome.exited 1)
    ∧ Ev.runLoopEntered ∉ (mainModel env args).1
    ∧ ∀ b ok, Ev.subAdded b ok ∉ (mainModel env args).1 := by
  have hmain : mainModel env args = ([], MainOutcome.exited 1) := by
    unfold mainModel
    rw [if_neg (by simp [hne, hnh])]
    cases hp : parseLoop args AppConfig.init with
    | error e => simp
    | ok cfg =>
        rw [hp] at hbad
        rcases hbad with hb | hb
        · simp [hb]
        · by_cases hf : noFilter cfg
          · simp [hf]
          · simp [hf, hb]
  refine ⟨hmain, ?_, ?_⟩
  · rw [hmain]; simp
  · intro b ok; rw [hmain]; simp

/-- C6 witness: an unknown flag exits 1 with nothing subscribed. -/
theorem config_error_exits_nonzero_before_subscriptions_witness :
    mainModel
        { ioServiceMatchingOk := true, addMatchedOk := true,
          addTerminatedOk := true, initialMatched := [], initialTerminated := [],
          sysExit := fun _ => 0 } ["--frobnicate", "1"]
      = ([], MainOutcome.exited 1)
    ∧ Ev.runLoopEntered ∉ (mainModel
        { ioServiceMatchingOk := true, addMatchedOk := true,
          addTerminatedOk := true, initialMatched := [], initialTerminated := [],
          sysExit := fun _ => 0 } ["--frobnicate", "1"]).1
    ∧ ∀ b ok, Ev.subAdded b ok ∉ (mainModel
        { ioServiceMatchingOk := true, addMatchedOk := true,
          addTerminatedOk := true, initialMatched := [], initialTerminated := [],
          sysExit := fun _ => 0 } ["--frobnicate", "1"]).1 :=
  config_error_exits_nonzero_before_subscriptions
    { ioServiceMatchingOk := true, addMatchedOk := true,
      addTerminatedOk := true, initialMatched := [], initialTerminated := [],
      sysExit := fun _ => 0 }
    ["--frobnicate", "1"] (by decide) (by decide) (by trivial)

/- ### C7 -/

/-- C7 counterexample: the command line "--vendor-id -5 --on-connect
/tmp/c.sh" parses to a configuration whose only supplied filter is the
negative number -5 (not int>0), yet startup validation accepts it: the
daemon starts up and stays in the run loop, and the compiled query carries
no VendorID constraint at all (the whole device class matches). -/
theorem negative_vendor_id_accepted_by_validation :
    parseLoop ["--vendor-id", "-5", "--on-connect", "/tmp/c.sh"] AppConfig.init
      = Except.ok
          { vendorID := -5, productID := 0, usagePage := 0, usage := 0,
            productName := none, deviceAddress := none,
            onConnectScript := some ("/tmp/c.sh"), onDisconnectScript := none }
    ∧ noFilter
        { vendorID := -5, productID := 0, usagePage := 0, usage := 0,
          productName := none, deviceAddress := none,
          onConnectScript := some ("/tmp/c.sh"), onDisconnectScript := none } = false
    ∧ noAction
        { vendorID := -5, productID := 0, usagePage := 0, usage := 0,
          productName := none, deviceAddress := none,
          onConnectScript := some ("/tmp/c.sh"), onDisconnectScript := none } = false
    ∧ createMatchingDictionary true
        { vendorID := -5, productID := 0, usagePage := 0, usage := 0,
          productName := none, deviceAddress := none,
          onConnectScript := some ("/tmp/c.sh"), onDisconnectScript := none }
      = some [("IOProviderClass", CFValue.str ("IOHIDUserDevice"))]
    ∧ (mainModel
        { ioServiceMatchingOk := true, addMatchedOk := true,
          addTerminatedOk := true, initialMatched := [], initialTerminated := [],
          sysExit := fun _ => 0 }
        ["--vendor-id", "-5", "--on-connect", "/tmp/c.sh"]).2
      = MainOutcome.runningForever := by
  refine ⟨by rfl, by rfl, by rfl, by rfl, by decide⟩

/-- C7 (amended): startup validation does not require positivity of the
numeric filter fields: it rejects exactly the configuration in which every
numeric filter is zero and both string filters are NULL. A supplied
non-positive numeric value therefore passes validation as long as it is not
zero, but it contributes no constraint to the compiled query, which adds
numeric constraints only for values > 0. -/
theorem validation_requires_some_filter_not_positivity
    (cfg : AppConfig) (baseOk : Bool) (d : CFDict)
    (hd : createMatchingDictionary baseOk cfg = some d) :
    (noFilter cfg = true ↔ (cfg.vendorID = 0 ∧ cfg.productID = 0
      ∧ cfg.productName = none ∧ cfg.deviceAddress = none
      ∧ cfg.usagePage = 0 ∧ cfg.usage = 0))
    ∧ (cfg.vendorID ≤ 0 → countKey d ("VendorID") = 0)
    ∧ (cfg.productID ≤ 0 → countKey d ("ProductID") = 0)
    ∧ (cfg.usagePage ≤ 0 → countKey d ("PrimaryUsagePage") = 0)
    ∧ (cfg.usage ≤ 0 → countKey d ("PrimaryUsage") = 0) := by
  have hb : baseOk = true := createMatchingDictionary_baseOk baseOk cfg d hd
  subst hb
  have hdn := hd
  rw [createMatchingDictionary_eq cfg] at hdn
  injection hdn with hdn
  refine ⟨?_, ?_, ?_, ?_, ?_⟩
  · simp [noFilter, and_assoc]
  · intro hle
    rw [← hdn]
    simp [countKey_cons, countKey_append, countKey_numEntry_self,
      countKey_strEntry_self, countKey_numEntry_ne, countKey_strEntry_ne]
    omega
  · intro hle
    rw [← hdn]
    simp [countKey_cons, countKey_append, countKey_numEntry_self,
      countKey_strEntry_self, countKey_numEntry_ne, countKey_strEntry_ne]
    omega
  · intro hle
    rw [← hdn]
    simp [countKey_cons, countKey_append, countKey_numEntry_self,
      countKey_strEntry_self, countKey_numEntry_ne, countKey_strEntry_ne]
    omega
  · intro hle
    rw [← hdn]
    simp [countKey_cons, countKey_append, countKey_numEntry_self,
      countKey_strEntry_self, countKey_numEntry_ne, countKey_strEntry_ne]
    omega

/-- C7 witness: the amended statement applied to the negative-vendor-id
configuration and its compiled dictionary. -/
theorem validation_requires_some_filter_not_positivity_witness :
    (noFilter
        { vendorID := -5, productID := 0, usagePage := 0, usage := 0,
          productName := none, deviceAddress := none,
          onConnectScript := some ("/tmp/c.sh"), onDisconnectScript := none } = true
      ↔ ((-5 : Int) = 0 ∧ (0 : Int) = 0
        ∧ (none : Option String) = none ∧ (none : Option String) = none
        ∧ (0 : Int) = 0 ∧ (0 : Int) = 0))
    ∧ ((-5 : Int) ≤ 0 →
        countKey [("IOProviderClass", CFValue.str ("IOHIDUserDevice"))] "VendorID" = 0)
    ∧ ((0 : Int) ≤ 0 →
        countKey [("IOProviderClass", CFValue.str ("IOHIDUserDevice"))] "ProductID" = 0)
    ∧ ((0 : Int) ≤ 0 →
        countKey [("IOProviderClass", CFValue.str ("IOHIDUserDevice"))] "PrimaryUsagePage" = 0)
    ∧ ((0 : Int) ≤ 0 →
        countKey [("IOProviderClass", CFValue.str ("IOHIDUserDevice"))] "PrimaryUsage" = 0) :=
  validation_requires_some_filter_not_positivity
    { vendorID := -5, productID := 0, usagePage := 0, usage := 0,
      productName := none, deviceAddress := none,
      onConnectScript := some ("/tmp/c.sh"), onDisconnectScript := none }
    true [("IOProviderClass", CFValue.str ("IOHIDUserDevice"))] (by rfl)

end Hidkitd
